import Mathlib

set_option maxRecDepth 4000

/-! Verification development for the Bedrock knowledge-base scripts repository.

The repository is a collection of Python scripts (a Streamlit chat UI in
`app.py` plus one-shot administrative scripts) that wrap AWS SDK calls.
This file gives a shallow embedding of the parts of those scripts that the
stated properties are about: the chat turn dispatch, the error-message
classification, the polling loops, the database schema setup loop, and the
public-access toggles.  External effects (SDK calls, `input()` prompts,
`time.sleep`) are made explicit: remote calls become entries in a call
trace, remote results and exceptions become explicit oracle inputs, and
loops take the stream of polled results as a function of the poll index. -/

/-! ## String helpers modelling Python's `in`, `str.strip` and `str.lower` -/

/-- Model of Python's substring membership test over character lists:
`charsContain pat l` is true when `pat` occurs contiguously inside `l`. -/
def charsContain (pat : List Char) : List Char → Bool
  | [] => pat.isPrefixOf ([] : List Char)
  | c :: cs => pat.isPrefixOf (c :: cs) || charsContain pat cs

/-- Model of Python's `pat in s` substring test on strings. -/
def containsSubstr (s pat : String) : Bool :=
  charsContain pat.data s.data

/-- Model of Python's `str.strip()` (ASCII whitespace at both ends). -/
def pyStrip (s : String) : String :=
  ⟨((s.data.dropWhile Char.isWhitespace).reverse.dropWhile Char.isWhitespace).reverse⟩

/-- Model of Python's `str.lower()` (ASCII case folding). -/
def pyLower (s : String) : String :=
  ⟨s.data.map Char.toLower⟩

/-! ## The chat UI (`app.py`)

A chat turn (the `if prompt := st.chat_input(...)` block, `app.py` lines
137-241) reads the sidebar configuration, appends the user message, then
dispatches on `kb_id == "your-knowledge-base-id"` and `aws_available`.
The three functions imported from the missing `bedrock_utils` module are
modelled as oracle results: what `valid_prompt`, `query_knowledge_base`
and `generate_response` would return, or the exception message they would
raise. -/

/-- Result of an external call: a returned value or a raised exception. -/
inductive Outcome (α : Type) where
  | ok (val : α)
  | raises (msg : String)
deriving DecidableEq

/-- Oracle for the three `bedrock_utils` functions used in one chat turn. -/
structure BedrockEnv where
  validPromptResult : Outcome Bool
  kbQueryResult : Outcome (List String)
  generateResult : Outcome String
deriving DecidableEq

/-- Sidebar configuration read by the chat turn. -/
structure ChatConfig where
  kb_id : String
  aws_available : Bool
  model_id : String
deriving DecidableEq

/-- A remote `bedrock_utils` API call made during a chat turn, with the
arguments it receives. -/
inductive RemoteCall where
  | validPromptCall (prompt model : String)
  | kbQueryCall (prompt kbId : String)
  | generateCall (prompt model : String)
deriving DecidableEq

/-- Whether a remote call is the knowledge-base retrieval call. -/
def RemoteCall.isKBQuery : RemoteCall → Bool
  | .kbQueryCall _ _ => true
  | _ => false

/-- Whether a remote call is the prompt-validation call. -/
def RemoteCall.isValidation : RemoteCall → Bool
  | .validPromptCall _ _ => true
  | _ => false

/-- Whether a remote call is the response-generation call. -/
def RemoteCall.isGeneration : RemoteCall → Bool
  | .generateCall _ _ => true
  | _ => false

/-- Name of the `bedrock_utils` function a remote call invokes. -/
def RemoteCall.bedrockUtilsFunction : RemoteCall → String
  | .validPromptCall _ _ => "valid_prompt"
  | .kbQueryCall _ _ => "query_knowledge_base"
  | .generateCall _ _ => "generate_response"

/-- Which of the four dispatch branches of the chat turn executed. -/
inductive Branch where
  | demoBedrock
  | demoOffline
  | kbRetrieval
  | kbNoCredentials
deriving DecidableEq

/-- The placeholder sentinel the sidebar `kb_id` text input defaults to
(`app.py` line 69) and every demo-mode check compares against. -/
def placeholderKbId : String := "your-knowledge-base-id"

/-- The demo-mode system context (`app.py` lines 149-159). -/
def demoContext : String :=
  "You are a helpful assistant specializing in heavy machinery and construction equipment. \n                    You have detailed knowledge about these specific equipment models and their spec sheets:\n                    \n                    1. Bulldozer BD850 - Heavy-duty bulldozer for earthmoving operations\n                    2. Dump Truck DT1000 - Large capacity dump truck for material transport\n                    3. Excavator X950 - Hydraulic excavator for digging and material handling\n                    4. Forklift FL250 - Industrial forklift for warehouse and construction use\n                    5. Mobile Crane MC750 - Mobile crane for lifting and positioning heavy loads\n                    \n                    When users ask about these specific models, provide detailed technical information.\n                    For other equipment, provide general but accurate information about specifications, operations, maintenance, and safety."

/-- The full prompt sent to `generate_response` in demo mode
(`app.py` line 161). -/
def demoFullPrompt (prompt : String) : String :=
  demoContext ++ "\n\nUser Question: " ++ prompt ++ "\n\nAssistant:"

/-- Canned refusal used in demo mode when `valid_prompt` returns false
(`app.py` line 164). -/
def offTopicDemoMsg : String :=
  "I specialize in heavy machinery equipment. Please ask about bulldozers, excavators, dump trucks, forklifts, mobile cranes, or related construction equipment."

/-- Demo-mode exception message (`app.py` line 166). -/
def demoErrorMsg (e : String) : String :=
  "❌ **Error**: " ++ e ++ ". Please check your AWS credentials."

/-- The static canned response used when AWS credentials are unavailable in
demo mode (`app.py` lines 169-202). -/
def demoOfflineResponse (prompt : String) : String :=
  "🤖 **Amazon Bedrock Heavy Machinery AI Assistant**\n\n**Your Question**: \"" ++ prompt ++ "\"\n\n🔧 **Demo Response** (Simulated Claude 3 Output):\n\nI\x27m specialized in heavy machinery and construction equipment. Based on your question about \"" ++ prompt ++ "\", here\x27s comprehensive information:\n\n**📊 Equipment Database** (From Uploaded S3 Spec Sheets):\n- **🚜 BD850 Bulldozer**: 850HP, GPS-guided blade, advanced hydraulics\n- **🚛 DT1000 Dump Truck**: 100-ton capacity, off-road capable, Cummins engine  \n- **⛏️ X950 Excavator**: 95-ton class, 360° rotation, precision controls\n- **🏗️ FL250 Forklift**: 2.5-ton lift capacity, warehouse/construction use\n- **🏗️ MC750 Mobile Crane**: 75-ton capacity, telescopic boom, all-terrain\n\n**🧠 Bedrock Knowledge Base Features:**\n- Real-time query processing via Claude 3 models\n- PDF document analysis and retrieval\n- Technical specification lookup\n- Maintenance schedule recommendations\n- Safety protocol guidance\n\n**📁 Document Repository Status:**\n✅ All PDF spec sheets uploaded to S3: `bedrock-kb-133720367604`\n✅ Knowledge Base ready for semantic search\n✅ Aurora PostgreSQL metadata storage active\n\n**🔗 Bedrock Integration:**\n- **Model**: Claude 3 Haiku/Sonnet (anthropic.claude-3-*)\n- **Region**: us-west-2  \n- **Knowledge Base**: Document embeddings ready\n- **Vector Search**: Semantic similarity matching\n\n*Note: This is a demonstration of the full Bedrock application. With valid AWS credentials, you\x27d get real-time AI responses powered by Claude 3 models and access to the complete knowledge base.*"

/-- Message shown when the knowledge-base retrieval returns no results
(`app.py` line 214). -/
def noResultsMsg (prompt : String) : String :=
  "🤖 **Claude 3 Response**: I couldn\x27t find specific information about \x27" ++ prompt ++ "\x27 in the knowledge base documents. However, I can provide general information about heavy machinery. The knowledge base contains specifications for BD850 Bulldozer, DT1000 Dump Truck, X950 Excavator, FL250 Forklift, and MC750 Mobile Crane. Please ask about these specific models or general heavy machinery topics."

/-- The full prompt sent to `generate_response` in knowledge-base mode
(`app.py` line 223). -/
def kbFullPrompt (context prompt : String) : String :=
  "Based on the following context from heavy machinery specification documents, please answer the user\x27s question comprehensively:\n\nContext: " ++ context ++ "\n\nUser Question: " ++ prompt ++ "\n\nProvide a detailed, technical response based on the documentation:"

/-- Canned refusal in knowledge-base mode when `valid_prompt` returns false
(`app.py` line 226). -/
def invalidQueryMsg : String :=
  "❌ **Invalid Query**: Please ask about heavy machinery equipment like bulldozers, excavators, dump trucks, forklifts, or mobile cranes. Avoid questions that are unrelated to construction equipment or potentially harmful."

/-- The "Knowledge Base Not Found" message (`app.py` line 230). -/
def kbNotFoundMsg (kb_id : String) : String :=
  "❌ **Knowledge Base Not Found**: The Knowledge Base ID \x27" ++ kb_id ++ "\x27 doesn\x27t exist or isn\x27t accessible. Please check the ID in the AWS Console and ensure it\x27s in the us-west-2 region."

/-- The "Access Denied" message (`app.py` line 232). -/
def accessDeniedMsg (kb_id : String) : String :=
  "❌ **Access Denied**: Don\x27t have permission to access Knowledge Base \x27" ++ kb_id ++ "\x27. Please check IAM permissions for Bedrock and Knowledge Base access."

/-- The generic knowledge-base error message (`app.py` line 234). -/
def kbGenericErrorMsg (error_msg : String) : String :=
  "❌ **Knowledge Base Error**: " ++ error_msg ++ ". Please verify your Knowledge Base ID and AWS credentials."

/-- Message shown in knowledge-base mode without AWS credentials
(`app.py` line 236). -/
def awsRequiredMsg (kb_id : String) : String :=
  "⚠️ **AWS Connection Required**: To use Knowledge Base \x27" ++ kb_id ++ "\x27, please configure valid AWS credentials. Currently running in demo mode - switch to \x27your-knowledge-base-id\x27 for demo responses."

/-- The exception handler of the knowledge-base branch (`app.py` lines
227-234): classify the raised error message by substring search. -/
def classify_kb_error (kb_id error_msg : String) : String :=
  if containsSubstr error_msg "NotFound" || containsSubstr error_msg "ResourceNotFound" then
    kbNotFoundMsg kb_id
  else if containsSubstr error_msg "AccessDenied" then
    accessDeniedMsg kb_id
  else
    kbGenericErrorMsg error_msg

/-- Result of one chat turn: the dispatch branch taken, the trace of
`bedrock_utils` calls in order, and the response text shown. -/
structure TurnResult where
  branch : Branch
  calls : List RemoteCall
  response : String
deriving DecidableEq

/-- One chat turn dispatch (`app.py` lines 142-236).  Mirrors the source:
the outer split is `kb_id == "your-knowledge-base-id"`, the inner split is
`aws_available`; in the AWS branches each `bedrock_utils` call may raise,
and the surrounding `try` maps the exception to a message (demo mode:
`demoErrorMsg`; knowledge-base mode: `classify_kb_error`).  An empty
retrieval result (`if not kb_results`) yields `noResultsMsg`. -/
def runChatTurn (cfg : ChatConfig) (env : BedrockEnv) (prompt : String) : TurnResult :=
  if cfg.kb_id = placeholderKbId then
    if cfg.aws_available then
      match env.validPromptResult with
      | .raises e => ⟨.demoBedrock, [.validPromptCall prompt cfg.model_id], demoErrorMsg e⟩
      | .ok false => ⟨.demoBedrock, [.validPromptCall prompt cfg.model_id], offTopicDemoMsg⟩
      | .ok true =>
        match env.generateResult with
        | .raises e =>
          ⟨.demoBedrock,
            [.validPromptCall prompt cfg.model_id,
             .generateCall (demoFullPrompt prompt) cfg.model_id],
            demoErrorMsg e⟩
        | .ok text =>
          ⟨.demoBedrock,
            [.validPromptCall prompt cfg.model_id,
             .generateCall (demoFullPrompt prompt) cfg.model_id],
            text⟩
    else
      ⟨.demoOffline, [], demoOfflineResponse prompt⟩
  else
    if cfg.aws_available then
      match env.validPromptResult with
      | .raises e =>
        ⟨.kbRetrieval, [.validPromptCall prompt cfg.model_id], classify_kb_error cfg.kb_id e⟩
      | .ok false =>
        ⟨.kbRetrieval, [.validPromptCall prompt cfg.model_id], invalidQueryMsg⟩
      | .ok true =>
        match env.kbQueryResult with
        | .raises e =>
          ⟨.kbRetrieval,
            [.validPromptCall prompt cfg.model_id, .kbQueryCall prompt cfg.kb_id],
            classify_kb_error cfg.kb_id e⟩
        | .ok [] =>
          ⟨.kbRetrieval,
            [.validPromptCall prompt cfg.model_id, .kbQueryCall prompt cfg.kb_id],
            noResultsMsg prompt⟩
        | .ok (r :: rs) =>
          match env.generateResult with
          | .raises e =>
            ⟨.kbRetrieval,
              [.validPromptCall prompt cfg.model_id, .kbQueryCall prompt cfg.kb_id,
               .generateCall (kbFullPrompt (String.intercalate "\n" (r :: rs)) prompt) cfg.model_id],
              classify_kb_error cfg.kb_id e⟩
          | .ok text =>
            ⟨.kbRetrieval,
              [.validPromptCall prompt cfg.model_id, .kbQueryCall prompt cfg.kb_id,
               .generateCall (kbFullPrompt (String.intercalate "\n" (r :: rs)) prompt) cfg.model_id],
              text⟩
    else
      ⟨.kbNoCredentials, [], awsRequiredMsg cfg.kb_id⟩

/-- A chat history entry (`st.session_state.messages` element). -/
structure ChatMessage where
  role : String
  content : String
deriving DecidableEq

/-- The full session update of one chat turn (`app.py` lines 138 and 241):
append the user message, run the dispatch, append the assistant message. -/
def chatTurnHistory (cfg : ChatConfig) (env : BedrockEnv)
    (history : List ChatMessage) (prompt : String) : List ChatMessage :=
  (history ++ [⟨"user", prompt⟩]) ++
    [⟨"assistant", (runChatTurn cfg env prompt).response⟩]

/-! ## Ingestion-job monitoring (`create_knowledge_base_guide.py` lines 92-131)

The `while True` monitoring loop polls `get_ingestion_job`, breaks when the
status field equals `COMPLETE` or `FAILED`, and otherwise sleeps 30 seconds
before polling again.  The whole loop sits inside the function-level
`try`/`except ClientError` of `start_ingestion_job` (lines 94 and 129-131):
a `ClientError` raised by a poll also exits the loop — the handler prints
the error and the function returns `None`.  We embed the loop fuel-based:
`polls i` is what the `(i+1)`-th `get_ingestion_job` call does (return a
status or raise), and running out of fuel (`none`) means the loop was
still running after that many polls. -/

/-- The terminal statuses of the ingestion monitor. -/
def terminalIngestionStatus (s : String) : Bool :=
  s == "COMPLETE" || s == "FAILED"

/-- The fixed sleep interval between ingestion polls, in seconds. -/
def ingestionSleepSeconds : Nat := 30

/-- Exit record of a loop run that broke on a terminal status: how many
polls and sleeps it made and the terminal status seen. -/
structure MonitorResult where
  pollsMade : Nat
  sleepsMade : Nat
  finalStatus : String
deriving DecidableEq

/-- How the monitoring loop exited: `finished` when a poll returned a
terminal status and the loop broke, or `clientError` when a poll raised a
`ClientError` that the function-level handler caught (printing the error
and returning `None`), with the poll and sleep counts at the raise. -/
inductive MonitorOutcome where
  | finished (r : MonitorResult)
  | clientError (pollsMade sleepsMade : Nat) (msg : String)
deriving DecidableEq

/-- Whether a poll outcome keeps the loop running: a returned status that
is neither `COMPLETE` nor `FAILED`.  A raise never continues the loop. -/
def monitorPollContinues : Outcome String → Bool
  | .ok s => !terminalIngestionStatus s
  | .raises _ => false

/-- The monitoring loop body, starting at poll index `i` with the given
fuel.  Mirrors the source: a raised `ClientError` exits through the
function-level `except` handler; `COMPLETE` and `FAILED` break out of the
loop; any other status sleeps `ingestionSleepSeconds` and polls again. -/
def monitorIngestionJob (polls : Nat → Outcome String) : Nat → Nat → Option MonitorOutcome
  | 0, _ => none
  | fuel + 1, i =>
    match polls i with
    | .raises e => some (.clientError (i + 1) i e)
    | .ok s =>
      if s == "COMPLETE" then some (.finished ⟨i + 1, i, s⟩)
      else if s == "FAILED" then some (.finished ⟨i + 1, i, s⟩)
      else monitorIngestionJob polls fuel (i + 1)

/-- The monitoring loop as entered from `start_ingestion_job`. -/
def runIngestionMonitor (polls : Nat → Outcome String) (fuel : Nat) : Option MonitorOutcome :=
  monitorIngestionJob polls fuel 0

/-! ## Collection polling loops (C5)

`setup_opensearch_serverless.py` lines 174-208: the wait-for-active loop is
bounded by `max_attempts = 20`; each iteration calls
`batch_get_collection` inside a `try`, returns on status `ACTIVE`, and on
anything else (including an exception, an empty detail list, and even the
`FAILED` status, whose `raise` is swallowed by the inner `except`)
increments the attempt counter and sleeps 30 seconds.  After 20 attempts it
raises a timeout exception.

`create_knowledge_base.py` lines 91-101: a `while True` loop that breaks on
`ACTIVE`, raises on `FAILED`, and otherwise sleeps 10 seconds. -/

/-- What one `batch_get_collection` poll yields in the setup script: a
raised exception, an empty `collectionDetails` list, or a status plus
endpoint. -/
inductive PollResult where
  | apiError (msg : String)
  | noDetails
  | found (status : String) (endpoint : String)
deriving DecidableEq

/-- Whether a poll reports the collection `ACTIVE`. -/
def isActivePoll : PollResult → Bool
  | .found s _ => s == "ACTIVE"
  | _ => false

/-- The attempt bound of the setup script's wait loop (`max_attempts = 20`). -/
def collectionMaxAttempts : Nat := 20

/-- The fixed sleep interval of the setup script's wait loop, in seconds. -/
def collectionSleepSeconds : Nat := 30

/-- The timeout exception message raised after the attempt bound. -/
def collectionTimeoutMsg : String :=
  "Collection did not become active within expected time"

/-- The bounded wait loop of `setup_opensearch_serverless.create_collection`
with `remaining` attempts left, polling from index `i`.  A `FAILED` status
raises inside the `try`, is caught by the inner `except`, and the loop
continues like any other non-`ACTIVE` outcome. -/
def collectionWaitAux (polls : Nat → PollResult) : Nat → Nat → Except String String
  | 0, _ => .error collectionTimeoutMsg
  | remaining + 1, i =>
    match polls i with
    | .found s endpoint =>
      if s == "ACTIVE" then .ok endpoint
      else collectionWaitAux polls remaining (i + 1)
    | .noDetails => collectionWaitAux polls remaining (i + 1)
    | .apiError _ => collectionWaitAux polls remaining (i + 1)

/-- The wait loop as entered from `create_collection`: at most
`collectionMaxAttempts` polls. -/
def createCollectionWait (polls : Nat → PollResult) : Except String String :=
  collectionWaitAux polls collectionMaxAttempts 0

/-- The terminal statuses of the unbounded collection wait loop in
`create_knowledge_base.py`. -/
def terminalCollectionStatus (s : String) : Bool :=
  s == "ACTIVE" || s == "FAILED"

/-- The fixed sleep interval of the `create_knowledge_base.py` wait loop. -/
def kbCollectionSleepSeconds : Nat := 10

/-- How the `create_knowledge_base.py` wait loop exited: `active` when the
status is `ACTIVE` and the loop breaks; `raised` when the status is
`FAILED` and the loop raises a plain `Exception` (not a `ClientError`, so
it propagates past the function-level handler); `clientError` when
`batch_get_collection` raises a `ClientError` that the function-level
handler (lines 106-108) catches, printing it and returning `None`;
`indexError` when `collectionDetails` is empty and the `[0]` subscript
raises an uncaught `IndexError`. -/
inductive KbWaitExit where
  | active
  | raised (msg : String)
  | clientError (msg : String)
  | indexError
deriving DecidableEq

/-- The exit, if any, that one `batch_get_collection` outcome causes in the
`create_knowledge_base.py` wait loop; `none` means the loop sleeps
`kbCollectionSleepSeconds` seconds and polls again. -/
def kbExitOf : PollResult → Option KbWaitExit
  | .apiError e => some (.clientError e)
  | .noDetails => some .indexError
  | .found s _ =>
    if s == "ACTIVE" then some .active
    else if s == "FAILED" then some (.raised "Collection creation failed")
    else none

/-- The unbounded `while True` wait loop of
`create_knowledge_base.create_opensearch_serverless_collection` (lines
91-101), fuel-based over the stream of `batch_get_collection` outcomes:
`none` means the loop was still running after `fuel` polls.  `ACTIVE`
breaks; `FAILED` raises an `Exception` that propagates uncaught; a raised
`ClientError` exits through the function-level handler returning `None`;
an empty detail list crashes with an `IndexError`. -/
def kbCollectionWait (polls : Nat → PollResult) : Nat → Nat → Option KbWaitExit
  | 0, _ => none
  | fuel + 1, i =>
    match polls i with
    | .apiError e => some (.clientError e)
    | .noDetails => some .indexError
    | .found s _ =>
      if s == "ACTIVE" then some .active
      else if s == "FAILED" then some (.raised "Collection creation failed")
      else kbCollectionWait polls fuel (i + 1)

/-! ## Database schema setup (`setup_database.py`)

`main` iterates over a fixed list of SQL statements; each is stripped and
executed via the RDS Data API inside a `try`.  On an exception whose
message contains neither `duplicate_object` nor `already exists` the
exception is re-raised, stopping the run; otherwise the loop continues
with the next statement. -/

/-- The fixed SQL statement sequence of `setup_database.py` lines 31-46. -/
def sql_statements : List String :=
  ["CREATE EXTENSION IF NOT EXISTS vector;",
   "CREATE SCHEMA IF NOT EXISTS bedrock_integration;",
   "DO $$ BEGIN CREATE ROLE bedrock_user LOGIN; EXCEPTION WHEN duplicate_object THEN RAISE NOTICE \x27Role already exists\x27; END $$;",
   "GRANT ALL ON SCHEMA bedrock_integration to bedrock_user;",
   "SET SESSION AUTHORIZATION bedrock_user;",
   "\n        CREATE TABLE IF NOT EXISTS bedrock_integration.bedrock_kb (\n            id uuid PRIMARY KEY,\n            embedding vector(1536),\n            chunks text,\n            metadata json\n        );\n        ",
   "CREATE INDEX IF NOT EXISTS bedrock_kb_embedding_idx ON bedrock_integration.bedrock_kb USING hnsw (embedding vector_cosine_ops);"]

/-- Whether an execution error is tolerated by the setup loop: its message
contains `duplicate_object` or `already exists` (`setup_database.py`
line 57, negated). -/
def isBenignSqlError (msg : String) : Bool :=
  containsSubstr msg "duplicate_object" || containsSubstr msg "already exists"

/-- Whether executing a (stripped) statement under the oracle `exec` stops
the run: it raises and the message is not benign. -/
def fatalSqlOutcome (exec : String → Option String) (stmt : String) : Bool :=
  match exec stmt with
  | none => false
  | some e => !isBenignSqlError e

/-- Decidable equality for `Except`, needed to evaluate run results on
concrete inputs. -/
instance {ε α : Type} [DecidableEq ε] [DecidableEq α] : DecidableEq (Except ε α) := fun x y =>
  match x, y with
  | .ok a, .ok b =>
    if h : a = b then .isTrue (by rw [h])
    else .isFalse (by intro hc; cases hc; exact h rfl)
  | .ok _, .error _ => .isFalse (by intro hc; cases hc)
  | .error _, .ok _ => .isFalse (by intro hc; cases hc)
  | .error a, .error b =>
    if h : a = b then .isTrue (by rw [h])
    else .isFalse (by intro hc; cases hc; exact h rfl)

/-- Trace of a setup run: the stripped statements attempted in order, and
whether the run completed or re-raised an error. -/
structure SetupRun where
  attemptedSql : List String
  result : Except String Unit
deriving DecidableEq

/-- The statement loop of `setup_database.main` (lines 50-58).  `exec stmt`
is the oracle outcome of `execute_sql_statement` on the stripped statement:
`none` for success, `some e` for an exception with message `e`. -/
def setupStatements (exec : String → Option String) : List String → SetupRun
  | [] => ⟨[], .ok ()⟩
  | sql :: rest =>
    let stmt := pyStrip sql
    match exec stmt with
    | none =>
      let r := setupStatements exec rest
      ⟨stmt :: r.attemptedSql, r.result⟩
    | some e =>
      if isBenignSqlError e then
        let r := setupStatements exec rest
        ⟨stmt :: r.attemptedSql, r.result⟩
      else ⟨[stmt], .error e⟩

/-- The whole schema setup run over the fixed statement list. -/
def runDatabaseSetup (exec : String → Option String) : SetupRun :=
  setupStatements exec sql_statements

/-! ## Module dependencies of the chat UI (C8) -/

/-- The module names of the repository's Python source files. -/
def repoSourceModules : List String :=
  ["app", "aurora_cmd_direct", "aurora_connection_analysis", "aurora_public_access",
   "check_database_config", "check_ingestion", "configure_vector_database",
   "create_index", "create_knowledge_base", "create_knowledge_base_guide",
   "create_knowledge_base_opensearch", "create_simple_kb",
   "database_connection_troubleshoot", "demo_bedrock_setup", "direct_aurora_setup",
   "disable_aurora_public", "enable_aurora_public", "get_database_password",
   "list_knowledge_bases", "manual_aurora_connection_guide", "run_database_setup",
   "setup_database", "setup_opensearch_serverless", "static_database_results",
   "test_database_connection", "test_knowledge_base", "test_new_kb",
   "verify_database_setup"]

/-- The modules `app.py` imports at load time (lines 1-5). -/
def appImportedModules : List String :=
  ["streamlit", "boto3", "botocore.exceptions", "json", "bedrock_utils"]

/-- The names `app.py` imports from `bedrock_utils` (line 5). -/
def bedrockUtilsImports : List String :=
  ["query_knowledge_base", "generate_response", "valid_prompt"]

/-- Model of Python import resolution at script load time: the script loads
only if every module named in its import statements is available.  This is
the language-level behaviour of the unconditional top-level `import`
statements in `app.py`. -/
def scriptLoads (available imports : List String) : Bool :=
  imports.all (fun m => available.contains m)

/-! ## Ingestion status check (`check_ingestion.py` lines 9-78) -/

/-- A `dataSourceSummaries` entry as read by `check_ingestion_status`. -/
structure DataSourceSummary where
  name : String
  status : String
  dataSourceId : String
deriving DecidableEq

/-- An `ingestionJobSummaries` entry. -/
structure IngestionJobSummary where
  ingestionJobId : String
  status : String
deriving DecidableEq

/-- A `bedrock-agent` API call made by `check_ingestion_status`. -/
inductive AgentCall where
  | listDataSources (kbId : String)
  | listIngestionJobs (kbId dsId : String)
  | getIngestionJob (kbId dsId jobId : String)
  | startIngestionJob (kbId dsId : String)
deriving DecidableEq

/-- Whether an agent call mutates remote state (starts an ingestion job);
the listing and get calls are read-only. -/
def AgentCall.isMutation : AgentCall → Bool
  | .startIngestionJob _ _ => true
  | _ => false

/-- The calls made for one data source in the status-printing loop
(`check_ingestion.py` lines 20-57): list its ingestion jobs and fetch
details of each `FAILED` job. -/
def dataSourceCalls (kbId : String) (listJobs : String → List IngestionJobSummary)
    (ds : DataSourceSummary) : List AgentCall :=
  AgentCall.listIngestionJobs kbId ds.dataSourceId ::
    (listJobs ds.dataSourceId).flatMap (fun job =>
      if job.status == "FAILED" then
        [AgentCall.getIngestionJob kbId ds.dataSourceId job.ingestionJobId]
      else [])

/-- The API call trace of `check_ingestion_status` (lines 9-74): list the
data sources, print per-source job status, and then — whenever the data
source list is non-empty — unconditionally start a new ingestion job on the
first data source (lines 59-72). -/
def check_ingestion_status (kbId : String) (summaries : List DataSourceSummary)
    (listJobs : String → List IngestionJobSummary) : List AgentCall :=
  (AgentCall.listDataSources kbId ::
    summaries.flatMap (dataSourceCalls kbId listJobs)) ++
  (match summaries with
   | [] => []
   | ds :: _ => [AgentCall.startIngestionJob kbId ds.dataSourceId])

/-! ## Aurora public access toggles (`aurora_public_access.py`) -/

/-- An RDS API call made by the public-access scripts. -/
inductive RdsCall where
  | modifyDbCluster (clusterId : String) (publiclyAccessible applyImmediately : Bool)
deriving DecidableEq

/-- The cluster identifier both functions target. -/
def auroraClusterId : String := "my-aurora-serverless"

/-- The enable path (`aurora_public_access.py` lines 10-46): prompt for
confirmation; the lowercased, stripped reply must equal `yes`, otherwise
return `False` with no API call; on `yes`, issue the cluster modification
enabling public access and return `True`.  `rawInput` is what `input()`
returned. -/
def enable_aurora_public_access (rawInput : String) : Bool × List RdsCall :=
  let response := pyStrip (pyLower rawInput)
  if response ≠ "yes" then (false, [])
  else (true, [.modifyDbCluster auroraClusterId true true])

/-- The disable path (lines 48-73): no confirmation prompt; issue the
cluster modification disabling public access and return `True`. -/
def disable_aurora_public_access : Bool × List RdsCall :=
  (true, [.modifyDbCluster auroraClusterId false true])

/-! ## Concrete inputs used by the refutations and witnesses -/

/-- A configuration with a real-looking knowledge base ID and credentials. -/
def cfgKB : ChatConfig :=
  ⟨"ABCD1234EF", true, "anthropic.claude-3-haiku-20240307-v1:0"⟩

/-- The default sidebar configuration: placeholder ID, credentials present. -/
def cfgDemo : ChatConfig :=
  ⟨"your-knowledge-base-id", true, "anthropic.claude-3-haiku-20240307-v1:0"⟩

/-- An oracle where validation passes, retrieval finds one document and
generation succeeds. -/
def envHappy : BedrockEnv :=
  ⟨.ok true, .ok ["BD850 spec sheet text"], .ok "generated answer"⟩

/-- An oracle where the knowledge-base query raises. -/
def envKbRaises : BedrockEnv :=
  ⟨.ok true, .raises "ResourceNotFoundException: no such knowledge base", .ok "generated answer"⟩

/-- A poll stream on which the collection never becomes active. -/
def stuckPolls : Nat → PollResult := fun _ => .found "CREATING" ""

/-- An ingestion poll stream that always returns a non-terminal status. -/
def stuckOkPolls : Nat → Outcome String := fun _ => Outcome.ok "CREATING"

/-- An ingestion poll stream that returns `IN_PROGRESS` twice and then
`COMPLETE`. -/
def completeAtTwoOk : Nat → Outcome String := fun i =>
  if i < 2 then Outcome.ok "IN_PROGRESS" else Outcome.ok "COMPLETE"

/-- An ingestion poll stream whose first call raises a `ClientError`. -/
def raisingPolls : Nat → Outcome String := fun _ =>
  Outcome.raises "ClientError: AccessDeniedException when calling the GetIngestionJob operation"

/-- An ingestion poll stream that returns `STARTING` once and then raises. -/
def raiseAtOne : Nat → Outcome String := fun i =>
  if i == 1 then Outcome.raises "ClientError: ThrottlingException" else Outcome.ok "STARTING"

/-- An SQL oracle where one statement fails benignly and the rest succeed. -/
def execBenign : String → Option String := fun stmt =>
  if stmt = "CREATE SCHEMA IF NOT EXISTS bedrock_integration;" then
    some "ERROR: schema \"bedrock_integration\" already exists"
  else none

/-- An SQL oracle where the GRANT statement fails fatally. -/
def execFatal : String → Option String := fun stmt =>
  if stmt = "GRANT ALL ON SCHEMA bedrock_integration to bedrock_user;" then
    some "ERROR: permission denied for schema bedrock_integration"
  else none

/-- A data source listing with one entry. -/
def sampleSummaries : List DataSourceSummary :=
  [⟨"Heavy Machinery PDFs", "AVAILABLE", "DS123"⟩]

/-- A job listing reporting a still-running ingestion job. -/
def sampleListJobs : String → List IngestionJobSummary :=
  fun _ => [⟨"JOB1", "IN_PROGRESS"⟩]

/-! ## Helper lemmas -/

/-- A list is a Boolean prefix of itself followed by anything. -/
theorem isPrefixOf_append_self (l t : List Char) : l.isPrefixOf (l ++ t) = true := by
  induction l with
  | nil => simp [List.isPrefixOf]
  | cons c cs ih => simp [List.isPrefixOf, ih]

/-- The empty pattern occurs in every list. -/
theorem charsContain_nil_pat (l : List Char) : charsContain [] l = true := by
  cases l <;> simp [charsContain, List.isPrefixOf]

/-- Unfolding equation of `charsContain` on a non-empty list. -/
theorem charsContain_cons (pat : List Char) (c : Char) (cs : List Char) :
    charsContain pat (c :: cs) = (pat.isPrefixOf (c :: cs) || charsContain pat cs) := rfl

/-- A pattern occurs in any list that embeds it contiguously. -/
theorem charsContain_append (pat pre suf : List Char) :
    charsContain pat (pre ++ pat ++ suf) = true := by
  induction pre with
  | nil =>
    cases pat with
    | nil => simpa using charsContain_nil_pat suf
    | cons c cs =>
      rw [List.nil_append, List.cons_append, charsContain_cons, ← List.cons_append,
        isPrefixOf_append_self, Bool.true_or]
  | cons c pre ih =>
    rw [List.cons_append, List.cons_append, charsContain_cons, ih, Bool.or_true]

/-- String-level version: `m` is a substring of `a ++ m ++ b`. -/
theorem containsSubstr_append (a m b : String) : containsSubstr (a ++ m ++ b) m = true := by
  have h : (a ++ m ++ b).data = a.data ++ m.data ++ b.data := by
    simp [String.data_append]
  rw [containsSubstr, h]
  exact charsContain_append m.data a.data b.data

/-- Soundness of the ingestion monitor: an exit comes from the first poll
that does not continue the loop — either a raise, exiting through the
function-level handler, or a terminal status, breaking the loop — and
every earlier poll (from the start index on) returned a non-terminal
status. -/
theorem monitorIngestionJob_sound (polls : Nat → Outcome String) :
    ∀ (fuel i : Nat) (x : MonitorOutcome),
      monitorIngestionJob polls fuel i = some x →
      ∃ n, i ≤ n ∧
        (∀ m, i ≤ m → m < n → monitorPollContinues (polls m) = true) ∧
        ((∃ e, polls n = Outcome.raises e ∧
            x = MonitorOutcome.clientError (n + 1) n e) ∨
         (∃ s, polls n = Outcome.ok s ∧ terminalIngestionStatus s = true ∧
            x = MonitorOutcome.finished ⟨n + 1, n, s⟩)) := by
  intro fuel
  induction fuel with
  | zero => intro i x h; simp [monitorIngestionJob] at h
  | succ fuel ih =>
    intro i x h
    rw [monitorIngestionJob] at h
    cases hp : polls i with
    | raises e =>
      rw [hp] at h
      have h2 : some (MonitorOutcome.clientError (i + 1) i e) = some x := h
      obtain rfl := Option.some.inj h2
      exact ⟨i, Nat.le_refl _, fun m h1 h2 => absurd h2 (by omega),
        Or.inl ⟨e, hp, rfl⟩⟩
    | ok s =>
      rw [hp] at h
      have h2 : (if (s == "COMPLETE") = true then
            some (MonitorOutcome.finished ⟨i + 1, i, s⟩)
          else if (s == "FAILED") = true then
            some (MonitorOutcome.finished ⟨i + 1, i, s⟩)
          else monitorIngestionJob polls fuel (i + 1)) = some x := h
      split at h2
      · next hC =>
        obtain rfl := Option.some.inj h2
        exact ⟨i, Nat.le_refl _, fun m h1 h2 => absurd h2 (by omega),
          Or.inr ⟨s, hp, by simp [terminalIngestionStatus, hC], rfl⟩⟩
      · next hC =>
        split at h2
        · next hF =>
          obtain rfl := Option.some.inj h2
          exact ⟨i, Nat.le_refl _, fun m h1 h2 => absurd h2 (by omega),
            Or.inr ⟨s, hp, by simp [terminalIngestionStatus, hF], rfl⟩⟩
        · next hF =>
          obtain ⟨n, hin, hbefore, hcase⟩ := ih (i + 1) x h2
          refine ⟨n, by omega, ?_, hcase⟩
          intro m h1 hm
          rcases Nat.eq_or_lt_of_le h1 with rfl | hlt
          · have hcc : ¬ s = "COMPLETE" := by simpa using hC
            have hff : ¬ s = "FAILED" := by simpa using hF
            simp [monitorPollContinues, hp, terminalIngestionStatus, hcc, hff]
          · exact hbefore m (by omega) hm

/-- Completeness of the ingestion monitor for the terminal-status exit:
the loop breaks at the first terminal poll when one occurs within the
fuel. -/
theorem monitorIngestionJob_complete_ok (polls : Nat → Outcome String) :
    ∀ (fuel i n : Nat) (s : String), i ≤ n → n < i + fuel →
      polls n = Outcome.ok s → terminalIngestionStatus s = true →
      (∀ m, i ≤ m → m < n → monitorPollContinues (polls m) = true) →
      monitorIngestionJob polls fuel i =
        some (MonitorOutcome.finished ⟨n + 1, n, s⟩) := by
  intro fuel
  induction fuel with
  | zero => intro i n s h1 h2 _ _ _; omega
  | succ fuel ih =>
    intro i n s hin hlt hpoll hterm hbefore
    rw [monitorIngestionJob]
    rcases Nat.eq_or_lt_of_le hin with rfl | hlt2
    · rw [hpoll]
      have hcase : s = "COMPLETE" ∨ s = "FAILED" := by
        simpa [terminalIngestionStatus] using hterm
      rcases hcase with h | h <;> simp [h]
    · have hcont : monitorPollContinues (polls i) = true :=
        hbefore i (Nat.le_refl _) hlt2
      cases hp : polls i with
      | raises e => rw [hp] at hcont; simp [monitorPollContinues] at hcont
      | ok s2 =>
        rw [hp] at hcont
        have h2 : ¬ s2 = "COMPLETE" ∧ ¬ s2 = "FAILED" := by
          simpa [monitorPollContinues, terminalIngestionStatus] using hcont
        show (if (s2 == "COMPLETE") = true then
            some (MonitorOutcome.finished ⟨i + 1, i, s2⟩)
          else if (s2 == "FAILED") = true then
            some (MonitorOutcome.finished ⟨i + 1, i, s2⟩)
          else monitorIngestionJob polls fuel (i + 1)) =
          some (MonitorOutcome.finished ⟨n + 1, n, s⟩)
        rw [if_neg (by simp [h2.1]), if_neg (by simp [h2.2])]
        exact ih (i + 1) n s (by omega) (by omega) hpoll hterm
          (fun m hm1 hm2 => hbefore m (by omega) hm2)

/-- Completeness of the ingestion monitor for the raise exit: the loop
exits through the function-level handler at the first raising poll when
one occurs within the fuel and no earlier poll was terminal. -/
theorem monitorIngestionJob_complete_raises (polls : Nat → Outcome String) :
    ∀ (fuel i n : Nat) (e : String), i ≤ n → n < i + fuel →
      polls n = Outcome.raises e →
      (∀ m, i ≤ m → m < n → monitorPollContinues (polls m) = true) →
      monitorIngestionJob polls fuel i =
        some (MonitorOutcome.clientError (n + 1) n e) := by
  intro fuel
  induction fuel with
  | zero => intro i n e h1 h2 _ _; omega
  | succ fuel ih =>
    intro i n e hin hlt hpoll hbefore
    rw [monitorIngestionJob]
    rcases Nat.eq_or_lt_of_le hin with rfl | hlt2
    · rw [hpoll]
    · have hcont : monitorPollContinues (polls i) = true :=
        hbefore i (Nat.le_refl _) hlt2
      cases hp : polls i with
      | raises e2 => rw [hp] at hcont; simp [monitorPollContinues] at hcont
      | ok s2 =>
        rw [hp] at hcont
        have h2 : ¬ s2 = "COMPLETE" ∧ ¬ s2 = "FAILED" := by
          simpa [monitorPollContinues, terminalIngestionStatus] using hcont
        show (if (s2 == "COMPLETE") = true then
            some (MonitorOutcome.finished ⟨i + 1, i, s2⟩)
          else if (s2 == "FAILED") = true then
            some (MonitorOutcome.finished ⟨i + 1, i, s2⟩)
          else monitorIngestionJob polls fuel (i + 1)) =
          some (MonitorOutcome.clientError (n + 1) n e)
        rw [if_neg (by simp [h2.1]), if_neg (by simp [h2.2])]
        exact ih (i + 1) n e (by omega) (by omega) hpoll
          (fun m hm1 hm2 => hbefore m (by omega) hm2)

/-- The ingestion monitor never exits while every poll returns a
non-terminal status without raising. -/
theorem monitorIngestionJob_none (polls : Nat → Outcome String)
    (h : ∀ n, monitorPollContinues (polls n) = true) :
    ∀ fuel i, monitorIngestionJob polls fuel i = none := by
  intro fuel
  induction fuel with
  | zero => intro i; rfl
  | succ fuel ih =>
    intro i
    rw [monitorIngestionJob]
    have hc := h i
    cases hp : polls i with
    | raises e => rw [hp] at hc; simp [monitorPollContinues] at hc
    | ok s =>
      rw [hp] at hc
      have h2 : ¬ s = "COMPLETE" ∧ ¬ s = "FAILED" := by
        simpa [monitorPollContinues, terminalIngestionStatus] using hc
      show (if (s == "COMPLETE") = true then
          some (MonitorOutcome.finished ⟨i + 1, i, s⟩)
        else if (s == "FAILED") = true then
          some (MonitorOutcome.finished ⟨i + 1, i, s⟩)
        else monitorIngestionJob polls fuel (i + 1)) = none
      rw [if_neg (by simp [h2.1]), if_neg (by simp [h2.2])]
      exact ih (i + 1)

/-- The bounded collection wait of the setup script times out when no poll
within its window reports the collection active. -/
theorem collectionWaitAux_stuck (polls : Nat → PollResult)
    (h : ∀ j, isActivePoll (polls j) = false) :
    ∀ remaining i, collectionWaitAux polls remaining i = .error collectionTimeoutMsg := by
  intro remaining
  induction remaining with
  | zero => intro i; rfl
  | succ remaining ih =>
    intro i
    rw [collectionWaitAux]
    cases hp : polls i with
    | apiError m => exact ih (i + 1)
    | noDetails => exact ih (i + 1)
    | found s ep =>
      have hs : ¬ s = "ACTIVE" := by
        have := h i
        rw [hp] at this
        simpa [isActivePoll] using this
      show (if (s == "ACTIVE") = true then Except.ok ep
        else collectionWaitAux polls remaining (i + 1)) = Except.error collectionTimeoutMsg
      rw [if_neg (by simp [hs])]
      exact ih (i + 1)

/-- The unbounded collection wait of `create_knowledge_base.py` never exits
while every poll keeps the loop running. -/
theorem kbCollectionWait_none (polls : Nat → PollResult)
    (h : ∀ j, kbExitOf (polls j) = none) :
    ∀ fuel i, kbCollectionWait polls fuel i = none := by
  intro fuel
  induction fuel with
  | zero => intro i; rfl
  | succ fuel ih =>
    intro i
    rw [kbCollectionWait]
    have hc := h i
    cases hp : polls i with
    | apiError e => rw [hp] at hc; simp [kbExitOf] at hc
    | noDetails => rw [hp] at hc; simp [kbExitOf] at hc
    | found s ep =>
      rw [hp] at hc
      have h1 : ¬ s = "ACTIVE" := by
        intro hs; subst hs; simp [kbExitOf] at hc
      have h2 : ¬ s = "FAILED" := by
        intro hs; subst hs; simp [kbExitOf] at hc
      show (if (s == "ACTIVE") = true then some KbWaitExit.active
        else if (s == "FAILED") = true then
          some (KbWaitExit.raised "Collection creation failed")
        else kbCollectionWait polls fuel (i + 1)) = none
      rw [if_neg (by simp [h1]), if_neg (by simp [h2])]
      exact ih (i + 1)

/-- Soundness of the unbounded collection wait: an exit comes from the
first poll that causes one — an `ACTIVE` break, the `FAILED` exception, a
caught `ClientError`, or the `IndexError` on an empty detail list — and
every earlier poll kept the loop running. -/
theorem kbCollectionWait_sound (polls : Nat → PollResult) :
    ∀ (fuel i : Nat) (x : KbWaitExit),
      kbCollectionWait polls fuel i = some x →
      ∃ n, i ≤ n ∧ kbExitOf (polls n) = some x ∧
        ∀ m, i ≤ m → m < n → kbExitOf (polls m) = none := by
  intro fuel
  induction fuel with
  | zero => intro i x h; simp [kbCollectionWait] at h
  | succ fuel ih =>
    intro i x h
    rw [kbCollectionWait] at h
    cases hp : polls i with
    | apiError e =>
      rw [hp] at h
      have h2 : some (KbWaitExit.clientError e) = some x := h
      obtain rfl := Option.some.inj h2
      exact ⟨i, Nat.le_refl _, by rw [hp]; rfl,
        fun m h1 h2 => absurd h2 (by omega)⟩
    | noDetails =>
      rw [hp] at h
      have h2 : some KbWaitExit.indexError = some x := h
      obtain rfl := Option.some.inj h2
      exact ⟨i, Nat.le_refl _, by rw [hp]; rfl,
        fun m h1 h2 => absurd h2 (by omega)⟩
    | found s ep =>
      rw [hp] at h
      have h2 : (if (s == "ACTIVE") = true then some KbWaitExit.active
          else if (s == "FAILED") = true then
            some (KbWaitExit.raised "Collection creation failed")
          else kbCollectionWait polls fuel (i + 1)) = some x := h
      split at h2
      · next hA =>
        obtain rfl := Option.some.inj h2
        refine ⟨i, Nat.le_refl _, ?_, fun m h1 h2 => absurd h2 (by omega)⟩
        rw [hp]
        simp [kbExitOf, hA]
      · next hA =>
        split at h2
        · next hF =>
          obtain rfl := Option.some.inj h2
          refine ⟨i, Nat.le_refl _, ?_, fun m h1 h2 => absurd h2 (by omega)⟩
          rw [hp]
          simp [kbExitOf, hA, hF]
        · next hF =>
          obtain ⟨n, hin, hexit, hbefore⟩ := ih (i + 1) x h2
          refine ⟨n, by omega, hexit, ?_⟩
          intro m h1 hm
          rcases Nat.eq_or_lt_of_le h1 with rfl | hlt
          · rw [hp]
            simp [kbExitOf, hA, hF]
          · exact hbefore m (by omega) hm

/-- When no statement outcome is fatal, the setup loop attempts every
statement and completes. -/
theorem setupStatements_ok (exec : String → Option String) :
    ∀ stmts : List String,
      (∀ sql ∈ stmts, fatalSqlOutcome exec (pyStrip sql) = false) →
      setupStatements exec stmts = ⟨stmts.map pyStrip, .ok ()⟩ := by
  intro stmts
  induction stmts with
  | nil => intro _; rfl
  | cons sql rest ih =>
    intro h
    have hsql := h sql (by simp)
    have hrest : ∀ s ∈ rest, fatalSqlOutcome exec (pyStrip s) = false :=
      fun s hs => h s (by simp [hs])
    rw [setupStatements]
    dsimp only
    cases he : exec (pyStrip sql) with
    | none => simp [ih hrest]
    | some e =>
      have hbenign : isBenignSqlError e = true := by
        rw [fatalSqlOutcome, he] at hsql
        simpa using hsql
      simp [hbenign, ih hrest]

/-- The first fatal statement stops the run: everything before it is
attempted, it is attempted, and the error is re-raised. -/
theorem setupStatements_fatal (exec : String → Option String) (e : String)
    (hbad : isBenignSqlError e = false) :
    ∀ (l₁ : List String) (sql : String) (l₂ : List String),
      (∀ s ∈ l₁, fatalSqlOutcome exec (pyStrip s) = false) →
      exec (pyStrip sql) = some e →
      setupStatements exec (l₁ ++ sql :: l₂) =
        ⟨l₁.map pyStrip ++ [pyStrip sql], .error e⟩ := by
  intro l₁
  induction l₁ with
  | nil =>
    intro sql l₂ _ hexec
    rw [List.nil_append, setupStatements]
    dsimp only
    rw [hexec]
    simp [hbad]
  | cons s rest ih =>
    intro sql l₂ hok hexec
    have hs := hok s (by simp)
    rw [List.cons_append, setupStatements]
    dsimp only
    cases he2 : exec (pyStrip s) with
    | none => simp [ih sql l₂ (fun x hx => hok x (by simp [hx])) hexec]
    | some e2 =>
      have hbenign : isBenignSqlError e2 = true := by
        rw [fatalSqlOutcome, he2] at hs
        simpa using hs
      simp [hbenign, ih sql l₂ (fun x hx => hok x (by simp [hx])) hexec]

/-- The per-data-source status printing makes only read calls. -/
theorem dataSourceCalls_no_mutation (kbId : String)
    (listJobs : String → List IngestionJobSummary) (ds : DataSourceSummary) :
    ∀ c ∈ dataSourceCalls kbId listJobs ds, c.isMutation = false := by
  intro c hc
  rw [dataSourceCalls] at hc
  rcases List.mem_cons.mp hc with rfl | hc2
  · rfl
  · obtain ⟨job, _, hcj⟩ := List.mem_flatMap.mp hc2
    by_cases hj : (job.status == "FAILED") = true
    · rw [if_pos hj] at hcj
      simp at hcj
      subst hcj
      rfl
    · rw [if_neg hj] at hcj
      simp at hcj

/-! ## Claim theorems -/

/-- C1: Demo mode in the chat UI is active if and only if the configured
knowledge base ID equals the placeholder string `your-knowledge-base-id`:
for every submitted input, when the ID equals the placeholder the response
is produced without querying the knowledge base, and when it differs and
AWS credentials are available the knowledge base retrieval branch is
taken. -/
theorem demo_mode_iff_placeholder (cfg : ChatConfig) (env : BedrockEnv) (prompt : String) :
    (cfg.kb_id = placeholderKbId →
      ∀ c ∈ (runChatTurn cfg env prompt).calls, c.isKBQuery = false) ∧
    (cfg.kb_id = placeholderKbId ↔
      ((runChatTurn cfg env prompt).branch = Branch.demoBedrock ∨
       (runChatTurn cfg env prompt).branch = Branch.demoOffline)) ∧
    (cfg.kb_id ≠ placeholderKbId → cfg.aws_available = true →
      (runChatTurn cfg env prompt).branch = Branch.kbRetrieval) := by
  obtain ⟨kb, aws, model⟩ := cfg
  obtain ⟨v, q, g⟩ := env
  by_cases hid : kb = placeholderKbId <;>
    cases aws <;>
    rcases v with ⟨_ | _⟩ | ⟨ev⟩ <;>
    rcases q with ⟨_ | ⟨r, rs⟩⟩ | ⟨eq2⟩ <;>
    rcases g with ⟨t⟩ | ⟨eg⟩ <;>
    simp [runChatTurn, hid, RemoteCall.isKBQuery]

/-- C1 witness: with the placeholder ID one of the demo branches runs, and
with a real ID plus credentials the knowledge base retrieval branch runs. -/
theorem demo_mode_iff_placeholder_witness :
    ((runChatTurn cfgDemo envHappy "q").branch = Branch.demoBedrock ∨
     (runChatTurn cfgDemo envHappy "q").branch = Branch.demoOffline) ∧
    (runChatTurn cfgKB envHappy "q").branch = Branch.kbRetrieval :=
  ⟨(demo_mode_iff_placeholder cfgDemo envHappy "q").2.1.mp rfl,
   (demo_mode_iff_placeholder cfgKB envHappy "q").2.2 (by decide) rfl⟩

/-- C2 counterexample: in knowledge-base mode with a valid prompt and a
non-empty retrieval result, one submitted input makes three remote calls
(validation, retrieval, generation) — two of them non-validation remote API
calls — so it is not the case that at most one remote API call is made per
input. -/
theorem chat_turn_not_single_remote_call :
    (runChatTurn cfgKB envHappy "question").calls.length = 3 ∧
    ¬ (((runChatTurn cfgKB envHappy "question").calls.filter
        (fun c => !c.isValidation)).length ≤ 1) := by
  exact ⟨rfl, by decide⟩

/-- C2 amended: every submitted chat input is dispatched by string equality
on the configured ID, makes at most three remote API calls — prompt
validation, knowledge-base retrieval and response generation each at most
once — and the final response text is appended to the display list. -/
theorem chat_turn_remote_call_bound (cfg : ChatConfig) (env : BedrockEnv)
    (history : List ChatMessage) (prompt : String) :
    (runChatTurn cfg env prompt).calls.countP (fun c => c.isValidation) ≤ 1 ∧
    (runChatTurn cfg env prompt).calls.countP (fun c => c.isKBQuery) ≤ 1 ∧
    (runChatTurn cfg env prompt).calls.countP (fun c => c.isGeneration) ≤ 1 ∧
    (runChatTurn cfg env prompt).calls.length ≤ 3 ∧
    chatTurnHistory cfg env history prompt =
      history ++ [⟨"user", prompt⟩,
        ⟨"assistant", (runChatTurn cfg env prompt).response⟩] := by
  obtain ⟨kb, aws, model⟩ := cfg
  obtain ⟨v, q, g⟩ := env
  by_cases hid : kb = placeholderKbId <;>
    cases aws <;>
    rcases v with ⟨_ | _⟩ | ⟨ev⟩ <;>
    rcases q with ⟨_ | ⟨r, rs⟩⟩ | ⟨eq2⟩ <;>
    rcases g with ⟨t⟩ | ⟨eg⟩ <;>
    simp [runChatTurn, chatTurnHistory, hid, RemoteCall.isValidation,
      RemoteCall.isKBQuery, RemoteCall.isGeneration, List.countP_cons]

/-- C3: the knowledge-base exception handler classifies a raised error by
substring search — `NotFound`/`ResourceNotFound` yields the Knowledge Base
Not Found message, otherwise `AccessDenied` yields the Access Denied
message, otherwise a generic message embedding the original error text —
and the handler returns that message instead of re-raising. -/
theorem kb_error_classification (kb_id msg : String) (cfg : ChatConfig)
    (env : BedrockEnv) (prompt e : String) :
    ((containsSubstr msg "NotFound" || containsSubstr msg "ResourceNotFound") = true →
      classify_kb_error kb_id msg = kbNotFoundMsg kb_id) ∧
    ((containsSubstr msg "NotFound" || containsSubstr msg "ResourceNotFound") = false →
      containsSubstr msg "AccessDenied" = true →
      classify_kb_error kb_id msg = accessDeniedMsg kb_id) ∧
    ((containsSubstr msg "NotFound" || containsSubstr msg "ResourceNotFound") = false →
      containsSubstr msg "AccessDenied" = false →
      classify_kb_error kb_id msg = kbGenericErrorMsg msg ∧
      containsSubstr (kbGenericErrorMsg msg) msg = true) ∧
    (cfg.kb_id ≠ placeholderKbId → cfg.aws_available = true →
      env.validPromptResult = Outcome.ok true →
      env.kbQueryResult = Outcome.raises e →
      (runChatTurn cfg env prompt).response = classify_kb_error cfg.kb_id e) := by
  refine ⟨?_, ?_, ?_, ?_⟩
  · intro h
    rw [classify_kb_error, if_pos h]
  · intro h1 h2
    rw [classify_kb_error, if_neg (by simp [h1]), if_pos h2]
  · intro h1 h2
    refine ⟨by rw [classify_kb_error, if_neg (by simp [h1]), if_neg (by simp [h2])], ?_⟩
    rw [kbGenericErrorMsg]
    exact containsSubstr_append _ msg _
  · intro hid haws hv hq
    rw [runChatTurn, if_neg hid, if_pos haws, hv, hq]

/-- C3 witness: a `ResourceNotFound` error is classified as Knowledge Base
Not Found, and a raising knowledge-base query produces the classified
message as the response. -/
theorem kb_error_classification_witness :
    classify_kb_error "ABCD1234EF" "ResourceNotFoundException: no such knowledge base" =
      kbNotFoundMsg "ABCD1234EF" ∧
    (runChatTurn cfgKB envKbRaises "q").response =
      classify_kb_error "ABCD1234EF" "ResourceNotFoundException: no such knowledge base" :=
  ⟨(kb_error_classification "ABCD1234EF"
      "ResourceNotFoundException: no such knowledge base" cfgKB envKbRaises "q"
      "ResourceNotFoundException: no such knowledge base").1 (by decide),
   (kb_error_classification "ABCD1234EF"
      "ResourceNotFoundException: no such knowledge base" cfgKB envKbRaises "q"
      "ResourceNotFoundException: no such knowledge base").2.2.2
      (by decide) rfl rfl rfl⟩

/-- C4 counterexample: on a poll stream whose first `get_ingestion_job`
call raises a `ClientError`, the monitoring loop exits through the
function-level exception handler — which prints the error and returns
`None` — although no poll ever returned a terminal `COMPLETE` or `FAILED`
status; so the loop does not exit only when the polled status field is
terminal. -/
theorem ingestion_monitor_client_error_counterexample :
    runIngestionMonitor raisingPolls 5 =
      some (MonitorOutcome.clientError 1 0
        "ClientError: AccessDeniedException when calling the GetIngestionJob operation") ∧
    raisingPolls 0 = Outcome.raises
      "ClientError: AccessDeniedException when calling the GetIngestionJob operation" := by
  exact ⟨rfl, rfl⟩

/-- C4 amended: the ingestion-job monitoring loop exits if and only if a
poll returns a terminal status (`COMPLETE` or `FAILED`) — breaking at the
first such poll — or a poll raises a `ClientError`, which the
function-level handler catches, returning `None`; on every poll that
returns any other status it sleeps 30 seconds and calls the status API
again, never exiting while the polls keep returning non-terminal
statuses. -/
theorem ingestion_monitor_exit_conditions (polls : Nat → Outcome String) (fuel : Nat) :
    (∀ x, runIngestionMonitor polls fuel = some x →
      ∃ n, (∀ m, m < n → monitorPollContinues (polls m) = true) ∧
        ((∃ e, polls n = Outcome.raises e ∧
            x = MonitorOutcome.clientError (n + 1) n e) ∨
         (∃ s, polls n = Outcome.ok s ∧ terminalIngestionStatus s = true ∧
            x = MonitorOutcome.finished ⟨n + 1, n, s⟩))) ∧
    (∀ n s, n < fuel → polls n = Outcome.ok s →
      terminalIngestionStatus s = true →
      (∀ m, m < n → monitorPollContinues (polls m) = true) →
      runIngestionMonitor polls fuel =
        some (MonitorOutcome.finished ⟨n + 1, n, s⟩)) ∧
    (∀ n e, n < fuel → polls n = Outcome.raises e →
      (∀ m, m < n → monitorPollContinues (polls m) = true) →
      runIngestionMonitor polls fuel =
        some (MonitorOutcome.clientError (n + 1) n e)) ∧
    ((∀ n, monitorPollContinues (polls n) = true) →
      runIngestionMonitor polls fuel = none) := by
  refine ⟨?_, ?_, ?_, ?_⟩
  · intro x h
    obtain ⟨n, _, hbefore, hcase⟩ := monitorIngestionJob_sound polls fuel 0 x h
    exact ⟨n, fun m hm => hbefore m (Nat.zero_le m) hm, hcase⟩
  · intro n s hn hpoll hterm hbefore
    exact monitorIngestionJob_complete_ok polls fuel 0 n s (Nat.zero_le n) (by omega)
      hpoll hterm (fun m _ hm => hbefore m hm)
  · intro n e hn hpoll hbefore
    exact monitorIngestionJob_complete_raises polls fuel 0 n e (Nat.zero_le n) (by omega)
      hpoll (fun m _ hm => hbefore m hm)
  · intro h
    exact monitorIngestionJob_none polls h fuel 0

/-- C4 witness: a stream that is `IN_PROGRESS` twice and then `COMPLETE`
makes the monitor break at the third poll after two sleeps, and a stream
that raises at the second poll makes it exit through the handler there. -/
theorem ingestion_monitor_exit_conditions_witness :
    runIngestionMonitor completeAtTwoOk 5 =
      some (MonitorOutcome.finished ⟨3, 2, "COMPLETE"⟩) ∧
    runIngestionMonitor raiseAtOne 5 =
      some (MonitorOutcome.clientError 2 1 "ClientError: ThrottlingException") :=
  ⟨(ingestion_monitor_exit_conditions completeAtTwoOk 5).2.1 2 "COMPLETE"
      (by omega) rfl (by decide) (by decide),
   (ingestion_monitor_exit_conditions raiseAtOne 5).2.2.1 1
      "ClientError: ThrottlingException" (by omega) rfl (by decide)⟩

/-- C5 counterexample: the collection wait loop of
`setup_opensearch_serverless.create_collection` terminates — raising its
timeout exception — on a poll stream whose status is always `CREATING`,
never active and never terminal; so that loop is bounded in attempts and
does not terminate only on a terminal status. -/
theorem collection_wait_bounded_counterexample :
    createCollectionWait stuckPolls = Except.error collectionTimeoutMsg ∧
    isActivePoll (stuckPolls 0) = false ∧
    terminalCollectionStatus "CREATING" = false := by
  exact ⟨by decide, by decide, by decide⟩

/-- C5 amended: all the waiting loops sleep a fixed interval with no
backoff, jitter or cancellation; the ingestion monitor and the
`create_knowledge_base.py` collection wait have no bound on their attempts
and never exit while every poll keeps returning a non-terminal status,
exiting only on a terminal status or a raised error (a caught
`ClientError`, the `FAILED`-status exception, or the `IndexError` on an
empty detail list); the `setup_opensearch_serverless.py` collection wait
is instead bounded at 20 attempts and raises a timeout exception when no
poll within that bound reports the collection active. -/
theorem polling_loops_fixed_interval (polls : Nat → PollResult)
    (mpolls : Nat → Outcome String) (fuel i : Nat) :
    ((∀ j, isActivePoll (polls j) = false) →
      createCollectionWait polls = Except.error collectionTimeoutMsg) ∧
    ((∀ j, kbExitOf (polls j) = none) → kbCollectionWait polls fuel i = none) ∧
    (∀ x, kbCollectionWait polls fuel i = some x →
      ∃ n, i ≤ n ∧ kbExitOf (polls n) = some x ∧
        ∀ m, i ≤ m → m < n → kbExitOf (polls m) = none) ∧
    ((∀ n, monitorPollContinues (mpolls n) = true) →
      runIngestionMonitor mpolls fuel = none) ∧
    collectionMaxAttempts = 20 ∧ collectionSleepSeconds = 30 ∧
    kbCollectionSleepSeconds = 10 ∧ ingestionSleepSeconds = 30 := by
  refine ⟨?_, ?_, ?_, ?_, rfl, rfl, rfl, rfl⟩
  · intro h
    exact collectionWaitAux_stuck polls h collectionMaxAttempts 0
  · intro h
    exact kbCollectionWait_none polls h fuel i
  · intro x h
    exact kbCollectionWait_sound polls fuel i x h
  · intro h
    exact monitorIngestionJob_none mpolls h fuel 0

/-- C5 witness: on an always-`CREATING` poll stream the bounded loop times
out while the unbounded collection wait and the ingestion monitor are
still running after their fuel is spent. -/
theorem polling_loops_fixed_interval_witness :
    createCollectionWait stuckPolls = Except.error collectionTimeoutMsg ∧
    kbCollectionWait stuckPolls 7 0 = none ∧
    runIngestionMonitor stuckOkPolls 7 = none :=
  ⟨(polling_loops_fixed_interval stuckPolls stuckOkPolls 7 0).1 (fun _ => rfl),
   (polling_loops_fixed_interval stuckPolls stuckOkPolls 7 0).2.1 (fun _ => rfl),
   (polling_loops_fixed_interval stuckPolls stuckOkPolls 7 0).2.2.2.1 (fun _ => rfl)⟩

/-- C6: the schema setup run attempts every statement of the fixed sequence
and completes when every raised error is benign (message containing
`duplicate_object` or `already exists`), and stops at the first statement
whose error is not benign, re-raising that error with the remaining
statements never attempted. -/
theorem setup_database_error_policy (exec : String → Option String) :
    ((∀ sql ∈ sql_statements, fatalSqlOutcome exec (pyStrip sql) = false) →
      runDatabaseSetup exec = ⟨sql_statements.map pyStrip, Except.ok ()⟩) ∧
    (∀ (l₁ : List String) (sql : String) (l₂ : List String) (e : String),
      sql_statements = l₁ ++ sql :: l₂ →
      (∀ s ∈ l₁, fatalSqlOutcome exec (pyStrip s) = false) →
      exec (pyStrip sql) = some e → isBenignSqlError e = false →
      runDatabaseSetup exec = ⟨l₁.map pyStrip ++ [pyStrip sql], Except.error e⟩) := by
  constructor
  · intro h
    exact setupStatements_ok exec sql_statements h
  · intro l₁ sql l₂ e hsplit hok hexec hbad
    rw [runDatabaseSetup, hsplit]
    exact setupStatements_fatal exec e hbad l₁ sql l₂ hok hexec

/-- C6 witness: a run where one statement raises an `already exists` error
completes the whole sequence, and a run where the GRANT statement raises a
permission error stops there with that error. -/
theorem setup_database_error_policy_witness :
    runDatabaseSetup execBenign = ⟨sql_statements.map pyStrip, Except.ok ()⟩ ∧
    runDatabaseSetup execFatal =
      ⟨(sql_statements.take 3).map pyStrip ++
        [pyStrip "GRANT ALL ON SCHEMA bedrock_integration to bedrock_user;"],
       Except.error "ERROR: permission denied for schema bedrock_integration"⟩ :=
  ⟨(setup_database_error_policy execBenign).1 (by decide),
   (setup_database_error_policy execFatal).2 (sql_statements.take 3)
     "GRANT ALL ON SCHEMA bedrock_integration to bedrock_user;"
     (sql_statements.drop 4)
     "ERROR: permission denied for schema bedrock_integration"
     (by decide) (by decide) (by decide) (by decide)⟩

/-- C7: a chat turn appends exactly two entries to the session history — a
user message with the input, then an assistant message with the computed
response — and the previous history is preserved unchanged as a prefix. -/
theorem chat_history_append_only (cfg : ChatConfig) (env : BedrockEnv)
    (history : List ChatMessage) (prompt : String) :
    chatTurnHistory cfg env history prompt =
      history ++ [⟨"user", prompt⟩,
        ⟨"assistant", (runChatTurn cfg env prompt).response⟩] ∧
    history <+: chatTurnHistory cfg env history prompt ∧
    (chatTurnHistory cfg env history prompt).length = history.length + 2 := by
  refine ⟨by simp [chatTurnHistory], ?_, by simp [chatTurnHistory]⟩
  rw [chatTurnHistory, List.append_assoc]
  exact List.prefix_append _ _

/-- C8: the chat UI imports the module `bedrock_utils`, which is not among
the repository's source modules; the script fails to load whenever that
module is unavailable; and every remote call of a chat turn — at least one
of which occurs whenever AWS credentials are available — invokes one of the
three names imported from `bedrock_utils`. -/
theorem bedrock_utils_missing_dependency (available : List String)
    (cfg : ChatConfig) (env : BedrockEnv) (prompt : String) :
    "bedrock_utils" ∈ appImportedModules ∧
    "bedrock_utils" ∉ repoSourceModules ∧
    ("bedrock_utils" ∉ available → scriptLoads available appImportedModules = false) ∧
    (cfg.aws_available = true → (runChatTurn cfg env prompt).calls ≠ []) ∧
    (∀ c ∈ (runChatTurn cfg env prompt).calls,
      c.bedrockUtilsFunction ∈ bedrockUtilsImports) := by
  refine ⟨by decide, by decide, ?_, ?_, ?_⟩
  · intro h
    have hc : available.contains "bedrock_utils" = false := by
      cases hcc : available.contains "bedrock_utils"
      · rfl
      · exact absurd (List.mem_of_elem_eq_true hcc) h
    simp [scriptLoads, appImportedModules, List.all, hc]
    exact fun _ _ _ _ => h
  · obtain ⟨kb, aws, model⟩ := cfg
    obtain ⟨v, q, g⟩ := env
    by_cases hid : kb = placeholderKbId <;>
      cases aws <;>
      rcases v with ⟨_ | _⟩ | ⟨ev⟩ <;>
      rcases q with ⟨_ | ⟨r, rs⟩⟩ | ⟨eq2⟩ <;>
      rcases g with ⟨t⟩ | ⟨eg⟩ <;>
      simp [runChatTurn, hid]
  · obtain ⟨kb, aws, model⟩ := cfg
    obtain ⟨v, q, g⟩ := env
    by_cases hid : kb = placeholderKbId <;>
      cases aws <;>
      rcases v with ⟨_ | _⟩ | ⟨ev⟩ <;>
      rcases q with ⟨_ | ⟨r, rs⟩⟩ | ⟨eq2⟩ <;>
      rcases g with ⟨t⟩ | ⟨eg⟩ <;>
      simp [runChatTurn, hid, RemoteCall.bedrockUtilsFunction, bedrockUtilsImports]

/-- C8 witness: with only the repository's own modules available the script
does not load, and a credentialed turn makes at least one remote call. -/
theorem bedrock_utils_missing_dependency_witness :
    scriptLoads repoSourceModules appImportedModules = false ∧
    (runChatTurn cfgKB envHappy "q").calls ≠ [] :=
  ⟨(bedrock_utils_missing_dependency repoSourceModules cfgKB envHappy "q").2.2.1 (by decide),
   (bedrock_utils_missing_dependency repoSourceModules cfgKB envHappy "q").2.2.2.1 rfl⟩

/-- C9: the ingestion status check is not read-only: its trace contains a
state-mutating call exactly when the data source listing is non-empty, in
which case it starts a new ingestion job on the first data source — whatever
statuses the job listings report — while the status-printing part itself
makes only read calls. -/
theorem check_ingestion_starts_new_job (kbId : String)
    (summaries : List DataSourceSummary)
    (listJobs : String → List IngestionJobSummary) :
    ((∃ c ∈ check_ingestion_status kbId summaries listJobs, c.isMutation = true) ↔
      summaries ≠ []) ∧
    (∀ ds rest, summaries = ds :: rest →
      AgentCall.startIngestionJob kbId ds.dataSourceId ∈
        check_ingestion_status kbId summaries listJobs) ∧
    (∀ c ∈ AgentCall.listDataSources kbId ::
        summaries.flatMap (dataSourceCalls kbId listJobs), c.isMutation = false) := by
  refine ⟨⟨?_, ?_⟩, ?_, ?_⟩
  · rintro ⟨c, hc, hm⟩ rfl
    rw [check_ingestion_status] at hc
    simp at hc
    subst hc
    simp [AgentCall.isMutation] at hm
  · intro hne
    match summaries with
    | [] => exact absurd rfl hne
    | ds :: rest =>
      refine ⟨AgentCall.startIngestionJob kbId ds.dataSourceId, ?_, rfl⟩
      rw [check_ingestion_status]
      exact List.mem_append_right _ (by simp)
  · rintro ds rest rfl
    rw [check_ingestion_status]
    exact List.mem_append_right _ (by simp)
  · intro c hc
    rcases List.mem_cons.mp hc with rfl | hc2
    · rfl
    · obtain ⟨ds, _, hcd⟩ := List.mem_flatMap.mp hc2
      exact dataSourceCalls_no_mutation kbId listJobs ds c hcd

/-- C9 witness: with one data source whose only listed job is still
`IN_PROGRESS`, the check still starts a new ingestion job on it. -/
theorem check_ingestion_starts_new_job_witness :
    AgentCall.startIngestionJob "L3CRT5Q79H" "DS123" ∈
      check_ingestion_status "L3CRT5Q79H" sampleSummaries sampleListJobs :=
  (check_ingestion_starts_new_job "L3CRT5Q79H" sampleSummaries sampleListJobs).2.1
    ⟨"Heavy Machinery PDFs", "AVAILABLE", "DS123"⟩ [] rfl

/-- C10: enabling public access issues the cluster modification call if and
only if the confirmation input, lowercased and stripped, equals `yes`
(otherwise it returns `False` with no call), while disabling issues the
modification unconditionally with no prompt. -/
theorem aurora_public_access_confirmation (raw : String) :
    ((enable_aurora_public_access raw).2 ≠ [] ↔ pyStrip (pyLower raw) = "yes") ∧
    (pyStrip (pyLower raw) = "yes" →
      enable_aurora_public_access raw =
        (true, [RdsCall.modifyDbCluster auroraClusterId true true])) ∧
    (pyStrip (pyLower raw) ≠ "yes" → enable_aurora_public_access raw = (false, [])) ∧
    disable_aurora_public_access =
      (true, [RdsCall.modifyDbCluster auroraClusterId false true]) := by
  by_cases h : pyStrip (pyLower raw) = "yes" <;>
    simp [enable_aurora_public_access, disable_aurora_public_access, h]

/-- C10 witness: the reply ` YES ` (lowercased and stripped to `yes`)
issues the enabling modification, and the reply `no` issues nothing. -/
theorem aurora_public_access_confirmation_witness :
    enable_aurora_public_access " YES " =
      (true, [RdsCall.modifyDbCluster auroraClusterId true true]) ∧
    enable_aurora_public_access "no" = (false, []) :=
  ⟨(aurora_public_access_confirmation " YES ").2.1 (by decide),
   (aurora_public_access_confirmation "no").2.2.1 (by decide)⟩
